import Mathlib

/-!
Verification development for the `print_list` authentication gate.

The core consists of the `Auth` class (credential extraction plus the
verification decision procedure) and the `ApiResponse` dispatcher.
External collaborators are modelled explicitly:

* the supabase credential store is an oracle inside `Auth.Env`
  (`selectByCookie` answers the
  `from user_cookies select eq cookie_string` query of one request, and
  `insertVerified` answers the single `insert is_verified true` of one
  request); a database answer is `DbResult.ok data`, `DbResult.err msg`
  (a response carrying an `error` field) or `DbResult.thrown msg`
  (the promise rejected / an exception was thrown, landing in the
  JS `catch` block);
* `Buffer.from(s, base64).toString()` is the oracle `decodeBase64`,
  where `none` models the decode step throwing (caught by the source);
* `process.env.data_password` is `data_password : Option String`,
  `none` modelling an unset variable: in JS a string is never `===`
  `undefined`, which the embedding renders by the `none` branch of the
  comparison returning `false`.

Effects on the store are made observable: every store-touching function
returns, next to its value, the list of store operations it performed.
-/

namespace Auth

/-- One persisted session record: the logical row shape of the
`user_cookies` table, fields `record_id`, `cookie_string`,
`is_verified`. -/
structure SessionRecord where
  record_id : String
  cookie_string : String
  is_verified : Bool
deriving DecidableEq, Repr

/-- Outcome of one supabase call: `ok` carries the `data` rows of a
successful response, `err` a response whose `error` field is set, and
`thrown` a rejected promise or thrown exception (which the source
catches). -/
inductive DbResult (α : Type) where
  | ok : α → DbResult α
  | err : String → DbResult α
  | thrown : String → DbResult α
deriving DecidableEq, Repr

/-- The external world of one request: process configuration, the Node
base64 decoder, and the credential store's answers to the (at most one)
lookup and the (at most one) insert this request can perform. -/
structure Env where
  data_password : Option String
  decodeBase64 : String → Option String
  selectByCookie : String → DbResult (List SessionRecord)
  insertVerified : DbResult (List SessionRecord)

/-- The request material the extractor reads: `req.headers?.authorization`
and `req.cookies?.['__Host-session']`, each possibly absent. -/
structure Request where
  authorization : Option String
  hostSessionCookie : Option String

/-- The private fields of an `Auth` instance after construction. -/
structure AuthState where
  authHeader : Option String
  sessionCookie : Option String
deriving DecidableEq, Repr

/-- The verdict shape returned by `Auth.isVerified`. -/
structure Verdict where
  verified : Bool
  reason : String
  newCookie : Option String
deriving DecidableEq, Repr

/-- An observable store operation: a `user_cookies` lookup by token, or
the insert of a fresh verified record. -/
inductive StoreOp where
  | lookup : String → StoreOp
  | create : StoreOp
deriving DecidableEq, Repr

/-- JS `x || null` on an optional string: any falsy value (absent field
or empty string) collapses to `null`. -/
def jsOrNull (o : Option String) : Option String :=
  match o with
  | none => none
  | some s => if s.data.isEmpty then none else some s

/-- JS truthiness of a nullable string: `null` and the empty string are
falsy, every other string is truthy. -/
def truthyStr (o : Option String) : Bool :=
  match o with
  | none => false
  | some s => !(s.data.isEmpty)

def emptyStr : String := ""

def ctorError : String := "Auth constructor requires a valid request object"

/-- The `Auth` constructor: throws on a missing request object, otherwise
extracts `authorization` and the `__Host-session` cookie, collapsing
absent or empty values to `null`. It takes the environment only to make
its independence from the store statable; no store operation occurs. -/
def authConstructor (_env : Env) (req : Option Request) : Except String AuthState :=
  match req with
  | none => Except.error ctorError
  | some r =>
    Except.ok { authHeader := jsOrNull r.authorization,
                sessionCookie := jsOrNull r.hostSessionCookie }

/-- `Auth.#hasAuthHeader`: double-negation truthiness of the header. -/
def hasAuthHeader (a : AuthState) : Bool := truthyStr a.authHeader

/-- `Auth.#hasCookie`: double-negation truthiness of the cookie. -/
def hasCookie (a : AuthState) : Bool := truthyStr a.sessionCookie

def basicScheme : String := "Basic "

/-- JS `String.prototype.startsWith` on the embedded strings. -/
def strStartsWith (s pat : String) : Bool := pat.data.isPrefixOf s.data

/-- Remove the first occurrence of `pat` (JS
`String.prototype.replace` with a string pattern and empty
replacement). -/
def replaceOnceAux (pat : List Char) : List Char → List Char
  | [] => []
  | c :: rest =>
    if pat.isPrefixOf (c :: rest) then (c :: rest).drop pat.length
    else c :: replaceOnceAux pat rest

/-- JS `s.replace(pat, emptyString)` for a string pattern. -/
def jsReplaceOnce (s pat : String) : String := String.mk (replaceOnceAux pat.data s.data)

/-- `Auth.#authHeaderPasswordMatch`: require the `Basic ` scheme, strip
it with `replace`, base64-decode (a thrown decode lands in the `catch`
and yields `false`), and compare against `process.env.data_password`
(a string is never `===` an unset variable). -/
def authHeaderPasswordMatch (env : Env) (a : AuthState) : Bool :=
  match a.authHeader with
  | none => false
  | some h =>
    if !(strStartsWith h basicScheme) then false
    else
      match env.decodeBase64 (jsReplaceOnce h basicScheme) with
      | none => false
      | some decoded =>
        match env.data_password with
        | none => false
        | some expected => decoded == expected

/-- Result shape of `Auth.#isCookieVerified`. -/
structure CookieCheck where
  found : Bool
  verified : Bool
  id : Option String
deriving DecidableEq, Repr

def cookieCheckMiss : CookieCheck := { found := false, verified := false, id := none }

/-- `Auth.#isCookieVerified`: no cookie means not found without a query;
otherwise one lookup, with database errors and thrown exceptions both
collapsing to not found, an empty row set to not found, and a non-empty
row set examined at its first record. -/
def isCookieVerified (env : Env) (a : AuthState) : CookieCheck × List StoreOp :=
  if !(hasCookie a) then (cookieCheckMiss, [])
  else
    match a.sessionCookie with
    | none => (cookieCheckMiss, [])
    | some token =>
      match env.selectByCookie token with
      | DbResult.err _ => (cookieCheckMiss, [StoreOp.lookup token])
      | DbResult.thrown _ => (cookieCheckMiss, [StoreOp.lookup token])
      | DbResult.ok [] => (cookieCheckMiss, [StoreOp.lookup token])
      | DbResult.ok (r :: _) =>
        ({ found := true, verified := r.is_verified, id := some r.record_id },
         [StoreOp.lookup token])

/-- Result shape of `Auth.#createCookie`. -/
structure CreateResult where
  success : Bool
  cookie : Option String
  id : Option String
deriving DecidableEq, Repr

def createFailed : CreateResult := { success := false, cookie := none, id := none }

/-- `Auth.#createCookie`: one insert of a verified record. A response
error or a thrown exception yields failure; an empty `data` array also
yields failure (reading a field of `data[0]` throws a TypeError that the
`catch` absorbs); otherwise the first returned record's token and id are
reported with success. -/
def createCookie (env : Env) : CreateResult × List StoreOp :=
  match env.insertVerified with
  | DbResult.err _ => (createFailed, [StoreOp.create])
  | DbResult.thrown _ => (createFailed, [StoreOp.create])
  | DbResult.ok [] => (createFailed, [StoreOp.create])
  | DbResult.ok (r :: _) =>
    ({ success := true, cookie := some r.cookie_string, id := some r.record_id },
     [StoreOp.create])

def reasonInvalidPattern : String := "Invalid Authorization pattern"
def reasonPasswordNoMatch : String := "Password does not match"
def reasonAuthVerified : String := "Authorization header verified"
def reasonNoCredentials : String := "No Authorization header or session cookie found"
def reasonCookieNotFound : String := "Session cookie not found"
def reasonCookieNotVerified : String := "Session cookie is not verified"
def reasonCookieVerified : String := "Session cookie verified"

/-- `Auth.isVerified`: the main decision procedure, returning the verdict
together with the store operations performed. -/
def isVerified (env : Env) (a : AuthState) : Verdict × List StoreOp :=
  if hasAuthHeader a then
    let h := a.authHeader.getD emptyStr
    if !(strStartsWith h basicScheme) then
      ({ verified := false, reason := reasonInvalidPattern, newCookie := none }, [])
    else if !(authHeaderPasswordMatch env a) then
      ({ verified := false, reason := reasonPasswordNoMatch, newCookie := none }, [])
    else
      let res := createCookie env
      ({ verified := true, reason := reasonAuthVerified,
         newCookie := if res.1.success then res.1.cookie else none }, res.2)
  else if !(hasCookie a) then
    ({ verified := false, reason := reasonNoCredentials, newCookie := none }, [])
  else
    let chk := isCookieVerified env a
    if !(chk.1.found) then
      ({ verified := false, reason := reasonCookieNotFound, newCookie := none }, chk.2)
    else if !(chk.1.verified) then
      ({ verified := false, reason := reasonCookieNotVerified, newCookie := none }, chk.2)
    else
      ({ verified := true, reason := reasonCookieVerified, newCookie := none }, chk.2)

end Auth

namespace ApiResponse

/-- An observable action of `ApiResponse.send` on the response object and
callbacks, in order. -/
inductive SendAction where
  | setCookieHeader : String → SendAction
  | runOnSuccess : Option String → SendAction
  | runOnError : String → SendAction
deriving DecidableEq, Repr

def reasonInternalError : String := "Internal authentication error"

/-- The `Set-Cookie` value built by `ApiResponse.send` for a fresh
token. -/
def sessionCookieHeader (t : String) : String :=
  "__Host-session=" ++ t ++ "; Max-Age=" ++ toString (30 * 24 * 60 * 60) ++
    "; HttpOnly; Secure; Path=/"

/-- `ApiResponse.send`: the verdict computation may have thrown
(`Except.error`), which the `catch` converts to the generic error
callback; otherwise a verified verdict attaches the session cookie
header exactly when `newCookie` is truthy and then runs the success
callback, and an unverified verdict runs the error callback with the
verdict's reason. -/
def send (authOutcome : Except String Auth.Verdict) : List SendAction :=
  match authOutcome with
  | Except.error _ => [SendAction.runOnError reasonInternalError]
  | Except.ok v =>
    if v.verified then
      (if Auth.truthyStr v.newCookie then
         [SendAction.setCookieHeader (sessionCookieHeader (v.newCookie.getD Auth.emptyStr))]
       else []) ++ [SendAction.runOnSuccess v.newCookie]
    else
      [SendAction.runOnError v.reason]

end ApiResponse

/-! Concrete fixtures used by witness and counterexample theorems. -/

def pwSecret : String := "correct-secret"
def otherPw : String := "other-password"
def tokenAbc : String := "abc123"
def hdrBearer : String := "Bearer xyz"
def hdrBasicX : String := "Basic eHh4"
def msgBoom : String := "boom"

def recTok1 : Auth.SessionRecord :=
  { record_id := "r1", cookie_string := "tok1", is_verified := true }

def recUnverified : Auth.SessionRecord :=
  { record_id := "r2", cookie_string := "abc123", is_verified := false }

def recVerified : Auth.SessionRecord :=
  { record_id := "r3", cookie_string := "abc123", is_verified := true }

/-- Store with nothing configured and no rows. -/
def envEmpty : Auth.Env :=
  { data_password := none
    decodeBase64 := fun _ => none
    selectByCookie := fun _ => Auth.DbResult.ok []
    insertVerified := Auth.DbResult.ok [] }

/-- Password configured, decoder returning the right secret, insert
succeeding with a fresh record. -/
def envGood : Auth.Env :=
  { data_password := some pwSecret
    decodeBase64 := fun _ => some pwSecret
    selectByCookie := fun _ => Auth.DbResult.ok []
    insertVerified := Auth.DbResult.ok [recTok1] }

/-- As `envGood` but the insert fails with a database error. -/
def envInsertErr : Auth.Env :=
  { envGood with insertVerified := Auth.DbResult.err msgBoom }

/-- Password configured but the presented credential decodes to a
different string. -/
def envBadPw : Auth.Env :=
  { data_password := some pwSecret
    decodeBase64 := fun _ => some otherPw
    selectByCookie := fun _ => Auth.DbResult.ok []
    insertVerified := Auth.DbResult.ok [] }

def aBearer : Auth.AuthState := { authHeader := some hdrBearer, sessionCookie := none }
def aBasic : Auth.AuthState := { authHeader := some hdrBasicX, sessionCookie := none }
def aCookieOnly : Auth.AuthState := { authHeader := none, sessionCookie := some tokenAbc }

open Auth ApiResponse

/-! Helper lemmas shared by the claim theorems. -/

theorem truthyStr_some_iff (s : String) : truthyStr (some s) = true ↔ s.data ≠ [] := by
  simp [truthyStr]

theorem startsWith_basic_ne_nil (h : String) (hp : strStartsWith h basicScheme = true) :
    h.data ≠ [] := by
  intro hnil
  simp only [strStartsWith, hnil] at hp
  exact absurd hp (by decide)

theorem hasAuthHeader_of_basic (a : AuthState) (h : String) (hSome : a.authHeader = some h)
    (hp : strStartsWith h basicScheme = true) : hasAuthHeader a = true := by
  have hne := startsWith_basic_ne_nil h hp
  simp [hasAuthHeader, hSome, truthyStr, hne]

theorem authHeaderPasswordMatch_iff (env : Env) (a : AuthState) :
    authHeaderPasswordMatch env a = true ↔
      ∃ h p, a.authHeader = some h ∧ strStartsWith h basicScheme = true ∧
        env.decodeBase64 (jsReplaceOnce h basicScheme) = some p ∧
        env.data_password = some p := by
  rcases hSome : a.authHeader with _ | h
  · simp [authHeaderPasswordMatch, hSome]
  · simp only [authHeaderPasswordMatch, hSome]
    by_cases hPre : strStartsWith h basicScheme = true
    · rcases hdec : env.decodeBase64 (jsReplaceOnce h basicScheme) with _ | d
      · simp [hPre, hdec]
      · rcases hpw : env.data_password with _ | e
        · simp [hPre, hdec, hpw]
        · simp [hPre, hdec, hpw]
    · simp [Bool.not_eq_true] at hPre
      simp [hPre]

theorem not_create_mem_cookie_trace (env : Env) (a : AuthState) :
    StoreOp.create ∉ (isCookieVerified env a).2 := by
  rcases hS : a.sessionCookie with _ | token
  · simp [isCookieVerified, hasCookie, truthyStr, hS]
  · by_cases hC : hasCookie a
    · rcases hsel : env.selectByCookie token with data | m | m
      · rcases data with _ | ⟨r, rest⟩ <;> simp [isCookieVerified, hC, hS, hsel]
      · simp [isCookieVerified, hC, hS, hsel]
      · simp [isCookieVerified, hC, hS, hsel]
    · simp [Bool.not_eq_true] at hC
      simp [isCookieVerified, hC]

theorem authHeaderPasswordMatch_false_of_no_header (env : Env) (a : AuthState)
    (hA : hasAuthHeader a = false) : authHeaderPasswordMatch env a = false := by
  by_cases hM : authHeaderPasswordMatch env a = true
  · obtain ⟨h, p, hSome, hPre, _, _⟩ := (authHeaderPasswordMatch_iff env a).mp hM
    rw [hasAuthHeader_of_basic a h hSome hPre] at hA
    exact absurd hA (by decide)
  · simpa [Bool.not_eq_true] using hM

theorem isVerified_no_creds (env : Env) (a : AuthState)
    (hA : hasAuthHeader a = false) (hC : hasCookie a = false) :
    isVerified env a =
      ({ verified := false, reason := reasonNoCredentials, newCookie := none }, []) := by
  simp [isVerified, hA, hC]

theorem isVerified_bad_pattern (env : Env) (a : AuthState) (h : String)
    (hSome : a.authHeader = some h) (hNE : h.data ≠ [])
    (hPre : strStartsWith h basicScheme = false) :
    isVerified env a =
      ({ verified := false, reason := reasonInvalidPattern, newCookie := none }, []) := by
  have hA : hasAuthHeader a = true := by simp [hasAuthHeader, hSome, truthyStr, hNE]
  simp [isVerified, hA, hSome, hPre, emptyStr]

theorem isVerified_no_match (env : Env) (a : AuthState) (h : String)
    (hSome : a.authHeader = some h) (hPre : strStartsWith h basicScheme = true)
    (hM : authHeaderPasswordMatch env a = false) :
    isVerified env a =
      ({ verified := false, reason := reasonPasswordNoMatch, newCookie := none }, []) := by
  have hA := hasAuthHeader_of_basic a h hSome hPre
  simp [isVerified, hA, hSome, hPre, hM, emptyStr]

theorem isVerified_match_branch (env : Env) (a : AuthState)
    (hM : authHeaderPasswordMatch env a = true) :
    isVerified env a =
      ({ verified := true, reason := reasonAuthVerified,
         newCookie := if (createCookie env).1.success then (createCookie env).1.cookie
                      else none },
       (createCookie env).2) := by
  obtain ⟨h, p, hSome, hPre, _, _⟩ := (authHeaderPasswordMatch_iff env a).mp hM
  have hA := hasAuthHeader_of_basic a h hSome hPre
  simp [isVerified, hA, hSome, hPre, hM, emptyStr]

theorem isVerified_cookie_branch (env : Env) (a : AuthState)
    (hA : hasAuthHeader a = false) (hC : hasCookie a = true) :
    isVerified env a =
      (if !((isCookieVerified env a).1.found) then
         ({ verified := false, reason := reasonCookieNotFound, newCookie := none },
          (isCookieVerified env a).2)
       else if !((isCookieVerified env a).1.verified) then
         ({ verified := false, reason := reasonCookieNotVerified, newCookie := none },
          (isCookieVerified env a).2)
       else
         ({ verified := true, reason := reasonCookieVerified, newCookie := none },
          (isCookieVerified env a).2)) := by
  simp [isVerified, hA, hC]

theorem isVerified_cookie_trace (env : Env) (a : AuthState)
    (hA : hasAuthHeader a = false) (hC : hasCookie a = true) :
    (isVerified env a).2 = (isCookieVerified env a).2 := by
  rw [isVerified_cookie_branch env a hA hC]
  split
  · rfl
  · split <;> rfl

theorem create_trace_char (env : Env) (a : AuthState) :
    StoreOp.create ∈ (isVerified env a).2 ↔ authHeaderPasswordMatch env a = true := by
  by_cases hM : authHeaderPasswordMatch env a = true
  · rw [isVerified_match_branch env a hM]
    rcases hins : env.insertVerified with data | m | m
    · rcases data with _ | ⟨r, rest⟩ <;> simp [createCookie, hins, hM]
    · simp [createCookie, hins, hM]
    · simp [createCookie, hins, hM]
  · simp only [Bool.not_eq_true] at hM
    simp only [hM, Bool.false_eq_true, iff_false]
    by_cases hA : hasAuthHeader a = true
    · rcases hSome : a.authHeader with _ | h
      · simp [hasAuthHeader, truthyStr, hSome] at hA
      · by_cases hPre : strStartsWith h basicScheme = true
        · rw [isVerified_no_match env a h hSome hPre hM]
          simp
        · simp only [Bool.not_eq_true] at hPre
          have hNE : h.data ≠ [] := by
            intro hnil
            simp [hasAuthHeader, truthyStr, hSome, hnil] at hA
          rw [isVerified_bad_pattern env a h hSome hNE hPre]
          simp
    · simp only [Bool.not_eq_true] at hA
      by_cases hC : hasCookie a = true
      · rw [isVerified_cookie_trace env a hA hC]
        exact not_create_mem_cookie_trace env a
      · simp only [Bool.not_eq_true] at hC
        rw [isVerified_no_creds env a hA hC]
        simp

/-! Claim theorems. -/

/-- C1: the verdict of `Auth.isVerified` has `verified = true` in exactly
two situations: (a) an inline authorization credential was supplied and,
after stripping the `Basic ` scheme and base64-decoding, matched the
configured shared secret; or (b) no inline credential was supplied, a
session token was supplied, the store lookup returned a matching record,
and that record's verified flag is true. Every other case yields
`verified = false`. -/
theorem isVerified_verified_iff (env : Env) (a : AuthState) :
    (isVerified env a).1.verified = true ↔
      ((∃ h p, a.authHeader = some h ∧ strStartsWith h basicScheme = true ∧
          env.decodeBase64 (jsReplaceOnce h basicScheme) = some p ∧
          env.data_password = some p) ∨
       (hasAuthHeader a = false ∧ ∃ t, a.sessionCookie = some t ∧ t.data ≠ [] ∧
          ∃ r rest, env.selectByCookie t = DbResult.ok (r :: rest) ∧
            r.is_verified = true)) := by
  by_cases hM : authHeaderPasswordMatch env a = true
  · rw [isVerified_match_branch env a hM]
    constructor
    · intro _
      exact Or.inl ((authHeaderPasswordMatch_iff env a).mp hM)
    · intro _
      rfl
  · simp only [Bool.not_eq_true] at hM
    have hMall : ∀ h p, a.authHeader = some h → strStartsWith h basicScheme = true →
        env.decodeBase64 (jsReplaceOnce h basicScheme) = some p →
        ¬ env.data_password = some p := by
      intro h p hx hpre hdec hpw
      have : authHeaderPasswordMatch env a = true :=
        (authHeaderPasswordMatch_iff env a).mpr ⟨h, p, hx, hpre, hdec, hpw⟩
      rw [hM] at this
      exact absurd this (by decide)
    by_cases hA : hasAuthHeader a = true
    · rcases hSome : a.authHeader with _ | h
      · simp [hasAuthHeader, truthyStr, hSome] at hA
      · by_cases hPre : strStartsWith h basicScheme = true
        · rw [isVerified_no_match env a h hSome hPre hM]
          simp [hA, hSome]
          exact fun hpre p hdec hpw => hMall h p hSome hpre hdec hpw
        · simp only [Bool.not_eq_true] at hPre
          have hNE : h.data ≠ [] := by
            intro hnil
            simp [hasAuthHeader, truthyStr, hSome, hnil] at hA
          rw [isVerified_bad_pattern env a h hSome hNE hPre]
          simp [hA, hSome, hPre]
    · simp only [Bool.not_eq_true] at hA
      rcases hS : a.sessionCookie with _ | t
      · have hC : hasCookie a = false := by simp [hasCookie, truthyStr, hS]
        rw [isVerified_no_creds env a hA hC]
        simp [hS]
        exact fun x hx hpre p hdec hpw => hMall x p hx hpre hdec hpw
      · by_cases hNE : t.data = []
        · have hC : hasCookie a = false := by simp [hasCookie, truthyStr, hS, hNE]
          rw [isVerified_no_creds env a hA hC]
          simp [hS, hNE]
          exact fun x hx hpre p hdec hpw => hMall x p hx hpre hdec hpw
        · have hC : hasCookie a = true := by simp [hasCookie, truthyStr, hS, hNE]
          rw [isVerified_cookie_branch env a hA hC]
          rcases hsel : env.selectByCookie t with data | m | m
          · rcases data with _ | ⟨r, rest⟩
            · simp [isCookieVerified, hC, hS, hsel, cookieCheckMiss, hA, hNE]
              exact fun x hx hpre p hdec hpw => hMall x p hx hpre hdec hpw
            · cases hv : r.is_verified
              · simp [isCookieVerified, hC, hS, hsel, hA, hNE, hv]
                exact fun x hx hpre p hdec hpw => hMall x p hx hpre hdec hpw
              · simp [isCookieVerified, hC, hS, hsel, hA, hNE, hv]
          · simp [isCookieVerified, hC, hS, hsel, cookieCheckMiss, hA, hNE]
            exact fun x hx hpre p hdec hpw => hMall x p hx hpre hdec hpw
          · simp [isCookieVerified, hC, hS, hsel, cookieCheckMiss, hA, hNE]
            exact fun x hx hpre p hdec hpw => hMall x p hx hpre hdec hpw

/-- C2: `Auth.isVerified` performs the store's record-creation operation
exactly when an inline credential was supplied and matched the shared
secret; in particular token-based re-verification performs no creation,
and as a pure function of the store's answers it returns the same verdict
for the same still-valid token. -/
theorem isVerified_creates_iff (env : Env) (a : AuthState) :
    StoreOp.create ∈ (isVerified env a).2 ↔
      ∃ h p, a.authHeader = some h ∧ strStartsWith h basicScheme = true ∧
        env.decodeBase64 (jsReplaceOnce h basicScheme) = some p ∧
        env.data_password = some p :=
  (create_trace_char env a).trans (authHeaderPasswordMatch_iff env a)

/-- C3: on the cookie path (no inline credential, token present), a store
error, a thrown exception, and an empty row set all yield the
not-found verdict; a first record with verified flag false yields the
not-verified verdict; a first record with verified flag true yields the
verified verdict with a null new token. -/
theorem isVerified_cookie_verdicts (env : Env) (a : AuthState) (t : String)
    (hA : hasAuthHeader a = false) (hS : a.sessionCookie = some t)
    (hNE : t.data ≠ []) :
    (∀ m, env.selectByCookie t = DbResult.err m →
       (isVerified env a).1 =
         { verified := false, reason := reasonCookieNotFound, newCookie := none }) ∧
    (∀ m, env.selectByCookie t = DbResult.thrown m →
       (isVerified env a).1 =
         { verified := false, reason := reasonCookieNotFound, newCookie := none }) ∧
    (env.selectByCookie t = DbResult.ok [] →
       (isVerified env a).1 =
         { verified := false, reason := reasonCookieNotFound, newCookie := none }) ∧
    (∀ r rest, env.selectByCookie t = DbResult.ok (r :: rest) →
       ((r.is_verified = false →
           (isVerified env a).1 =
             { verified := false, reason := reasonCookieNotVerified, newCookie := none }) ∧
        (r.is_verified = true →
           (isVerified env a).1 =
             { verified := true, reason := reasonCookieVerified, newCookie := none }))) := by
  have hC : hasCookie a = true := by simp [hasCookie, truthyStr, hS, hNE]
  refine ⟨?_, ?_, ?_, ?_⟩
  · intro m hsel
    rw [isVerified_cookie_branch env a hA hC]
    simp [isCookieVerified, hC, hS, hsel, cookieCheckMiss]
  · intro m hsel
    rw [isVerified_cookie_branch env a hA hC]
    simp [isCookieVerified, hC, hS, hsel, cookieCheckMiss]
  · intro hsel
    rw [isVerified_cookie_branch env a hA hC]
    simp [isCookieVerified, hC, hS, hsel, cookieCheckMiss]
  · intro r rest hsel
    constructor
    · intro hv
      rw [isVerified_cookie_branch env a hA hC]
      simp [isCookieVerified, hC, hS, hsel, hv]
    · intro hv
      rw [isVerified_cookie_branch env a hA hC]
      simp [isCookieVerified, hC, hS, hsel, hv]

/-- C3 witness: a token absent from the store yields the not-found
verdict. -/
theorem isVerified_cookie_verdicts_witness :
    (isVerified envEmpty aCookieOnly).1 =
      { verified := false, reason := reasonCookieNotFound, newCookie := none } :=
  (isVerified_cookie_verdicts envEmpty aCookieOnly tokenAbc rfl rfl
    (by decide)).2.2.1 rfl

/-- C4: when the inline credential matches but the store's record
creation fails (error response, thrown exception, or empty returned row
set), the verdict is still verified with the authorization reason and a
null new token; and the new token is non-null only when the store
confirmed a successful creation, in which case it is the store-generated
token of the first returned record. -/
theorem isVerified_creation_failure (env : Env) (a : AuthState)
    (hM : authHeaderPasswordMatch env a = true) :
    (∀ m, env.insertVerified = DbResult.err m →
       (isVerified env a).1 =
         { verified := true, reason := reasonAuthVerified, newCookie := none }) ∧
    (∀ m, env.insertVerified = DbResult.thrown m →
       (isVerified env a).1 =
         { verified := true, reason := reasonAuthVerified, newCookie := none }) ∧
    (env.insertVerified = DbResult.ok [] →
       (isVerified env a).1 =
         { verified := true, reason := reasonAuthVerified, newCookie := none }) ∧
    (∀ t, (isVerified env a).1.newCookie = some t →
       ∃ r rest, env.insertVerified = DbResult.ok (r :: rest) ∧
         t = r.cookie_string) := by
  rw [isVerified_match_branch env a hM]
  refine ⟨?_, ?_, ?_, ?_⟩
  · intro m hins
    simp [createCookie, hins, createFailed]
  · intro m hins
    simp [createCookie, hins, createFailed]
  · intro hins
    simp [createCookie, hins, createFailed]
  · intro t ht
    rcases hins : env.insertVerified with data | m | m
    · rcases data with _ | ⟨r, rest⟩
      · simp [createCookie, hins, createFailed] at ht
      · simp [createCookie, hins] at ht
        exact ⟨r, rest, rfl, ht.symm⟩
    · simp [createCookie, hins, createFailed] at ht
    · simp [createCookie, hins, createFailed] at ht

/-- C4 witness: matching credential with a failing insert still verifies
with a null token. -/
theorem isVerified_creation_failure_witness :
    (isVerified envInsertErr aBasic).1 =
      { verified := true, reason := reasonAuthVerified, newCookie := none } :=
  (isVerified_creation_failure envInsertErr aBasic (by decide)).1 msgBoom rfl

/-- C5: a credential carrying the `Basic ` scheme whose remainder does
not base64-decode to the configured secret (including a decode that
throws) yields the password-mismatch verdict with no exception escaping
and no store operation, so no record is created. -/
theorem isVerified_password_mismatch (env : Env) (a : AuthState) (h : String)
    (hSome : a.authHeader = some h) (hPre : strStartsWith h basicScheme = true)
    (hNM : ∀ p, env.decodeBase64 (jsReplaceOnce h basicScheme) = some p →
             env.data_password ≠ some p) :
    (isVerified env a).1 =
      { verified := false, reason := reasonPasswordNoMatch, newCookie := none } ∧
    (isVerified env a).2 = [] := by
  have hM : authHeaderPasswordMatch env a = false := by
    by_cases hM2 : authHeaderPasswordMatch env a = true
    · obtain ⟨h2, p, hSome2, hPre2, hdec2, hpw2⟩ :=
        (authHeaderPasswordMatch_iff env a).mp hM2
      rw [hSome] at hSome2
      injection hSome2 with he
      subst he
      exact absurd hpw2 (hNM p hdec2)
    · simpa [Bool.not_eq_true] using hM2
  rw [isVerified_no_match env a h hSome hPre hM]
  exact ⟨rfl, rfl⟩

/-- C5 witness: a credential decoding to the wrong secret is rejected
with the mismatch reason and an empty store trace. -/
theorem isVerified_password_mismatch_witness :
    (isVerified envBadPw aBasic).1 =
      { verified := false, reason := reasonPasswordNoMatch, newCookie := none } ∧
    (isVerified envBadPw aBasic).2 = [] :=
  isVerified_password_mismatch envBadPw aBasic hdrBasicX rfl (by decide)
    (by
      intro p hp
      have hp2 : some otherPw = some p := hp
      injection hp2 with he
      subst he
      decide)

/-- C6: a supplied credential that does not start with the literal
`Basic ` scheme yields the invalid-pattern verdict for every store
state, with no store operation performed. -/
theorem isVerified_invalid_pattern (env : Env) (a : AuthState) (h : String)
    (hSome : a.authHeader = some h) (hNE : h.data ≠ [])
    (hPre : strStartsWith h basicScheme = false) :
    (isVerified env a).1 =
      { verified := false, reason := reasonInvalidPattern, newCookie := none } ∧
    (isVerified env a).2 = [] := by
  rw [isVerified_bad_pattern env a h hSome hNE hPre]
  exact ⟨rfl, rfl⟩

/-- C6 witness: a bearer-style credential is rejected as an invalid
pattern with an empty store trace. -/
theorem isVerified_invalid_pattern_witness :
    (isVerified envGood aBearer).1 =
      { verified := false, reason := reasonInvalidPattern, newCookie := none } ∧
    (isVerified envGood aBearer).2 = [] :=
  isVerified_invalid_pattern envGood aBearer hdrBearer rfl (by decide) (by decide)

/-- C7: whenever the verdict computation inside `ApiResponse.send` ends
in a thrown exception, the dispatcher runs the error callback with the
single generic internal-error reason; `send` is a total function of the
outcome, so no raw exception reaches the transport layer. -/
theorem send_internal_error (e : String) :
    ApiResponse.send (Except.error e) =
      [SendAction.runOnError ApiResponse.reasonInternalError] := rfl

/-- C8 counterexample: a verdict that is verified with the non-null but
empty new token is dispatched without any set-cookie action, refuting
the claim that every non-null token gets a header. -/
theorem send_empty_token_counterexample :
    (Verdict.mk true reasonAuthVerified (some emptyStr)).newCookie ≠ none ∧
    (Verdict.mk true reasonAuthVerified (some emptyStr)).verified = true ∧
    ApiResponse.send (Except.ok (Verdict.mk true reasonAuthVerified (some emptyStr))) =
      [SendAction.runOnSuccess (some emptyStr)] :=
  ⟨by decide, rfl, rfl⟩

/-- C8 amended: for a verified verdict whose new token is non-null and
non-empty (JS-truthy), `send` performs exactly one set-cookie action,
carrying the `__Host-session` header value with the 30-day max age,
before the success callback; when the verdict is unverified or the token
is not truthy, no set-cookie action occurs. -/
theorem send_setCookie_amended (v : Verdict) :
    (v.verified = true → ∀ t, v.newCookie = some t → t.data ≠ [] →
       ApiResponse.send (Except.ok v) =
         [SendAction.setCookieHeader (ApiResponse.sessionCookieHeader t),
          SendAction.runOnSuccess (some t)]) ∧
    ((v.verified = false ∨ truthyStr v.newCookie = false) →
       ∀ s, SendAction.setCookieHeader s ∉ ApiResponse.send (Except.ok v)) := by
  constructor
  · intro hv t ht hne
    simp [ApiResponse.send, hv, ht, truthyStr, hne]
  · intro hcond s
    rcases hcond with hv | htr
    · simp [ApiResponse.send, hv]
    · cases hv : v.verified
      · simp [ApiResponse.send, hv]
      · simp [ApiResponse.send, hv, htr]

/-- C8 amended witness: a verified verdict with a concrete non-empty
token yields exactly the set-cookie action followed by the success
callback. -/
theorem send_setCookie_amended_witness :
    ApiResponse.send (Except.ok (Verdict.mk true reasonAuthVerified (some tokenAbc))) =
      [SendAction.setCookieHeader (ApiResponse.sessionCookieHeader tokenAbc),
       SendAction.runOnSuccess (some tokenAbc)] :=
  (send_setCookie_amended (Verdict.mk true reasonAuthVerified (some tokenAbc))).1
    rfl tokenAbc rfl (by decide)

/-- C9: on any request object, the constructor's extraction never
throws, depends on no store state, and represents an absent
authorization header or cookie as null via the or-null collapse. -/
theorem authConstructor_safe (env env2 : Env) (r : Request) :
    authConstructor env (some r) = authConstructor env2 (some r) ∧
    authConstructor env (some r) =
      Except.ok { authHeader := jsOrNull r.authorization,
                  sessionCookie := jsOrNull r.hostSessionCookie } ∧
    jsOrNull none = none :=
  ⟨rfl, rfl, rfl⟩

/-- C10: with no configured shared secret, the inline-credential check
fails for every credential (a string is never equal to an unset value),
so a request carrying an authorization header is never verified and the
store never performs a record creation. -/
theorem no_configured_password (env : Env) (a : AuthState)
    (hNone : env.data_password = none) :
    authHeaderPasswordMatch env a = false ∧
    (hasAuthHeader a = true → (isVerified env a).1.verified = false) ∧
    StoreOp.create ∉ (isVerified env a).2 := by
  have hM : authHeaderPasswordMatch env a = false := by
    by_cases hM2 : authHeaderPasswordMatch env a = true
    · obtain ⟨h, p, _, _, _, hpw⟩ := (authHeaderPasswordMatch_iff env a).mp hM2
      rw [hNone] at hpw
      exact absurd hpw (by simp)
    · simpa [Bool.not_eq_true] using hM2
  refine ⟨hM, ?_, ?_⟩
  · intro hA
    rcases hSome : a.authHeader with _ | h
    · simp [hasAuthHeader, truthyStr, hSome] at hA
    · by_cases hPre : strStartsWith h basicScheme = true
      · rw [isVerified_no_match env a h hSome hPre hM]
      · simp only [Bool.not_eq_true] at hPre
        have hNE : h.data ≠ [] := by
          intro hnil
          simp [hasAuthHeader, truthyStr, hSome, hnil] at hA
        rw [isVerified_bad_pattern env a h hSome hNE hPre]
  · intro hmem
    have := (create_trace_char env a).mp hmem
    rw [hM] at this
    exact absurd this (by decide)

/-- C10 witness: with the empty environment (no password configured), a
basic credential is rejected and the trace holds no creation. -/
theorem no_configured_password_witness :
    authHeaderPasswordMatch envEmpty aBasic = false ∧
    (hasAuthHeader aBasic = true → (isVerified envEmpty aBasic).1.verified = false) ∧
    StoreOp.create ∉ (isVerified envEmpty aBasic).2 :=
  no_configured_password envEmpty aBasic rfl
